import Mathlib

/-!
Verification of the go-fuse mounting and zero-copy write core.

The definitions below are a shallow embedding of the Go sources:
`src/unnamed/part_000` (mount/unmount/parseFuseFd/getConnection plus a
second `systemWrite` variant), `src/fuse/splice_linux.go` (`trySplice`) and
`src/fuse/server_linux.go` (`systemWrite`).  Byte sequences are `List Nat`,
fallible system calls are driven by an explicit environment record that
fixes each call's reported byte count and error flag, and the effect on the
kernel channel is made an explicit field of the result.
-/

namespace GoFuse

/-- One platform memory page.  The source reads the page size once from the
runtime; on the Linux targets of this code it is 4096 bytes. -/
def pageSize : Nat := 4096

/-! ## Strings: Go `path.Split` and `strconv.Atoi` (used by `parseFuseFd`) -/

/-- Go `path.Split`: split a path immediately after its final slash, so
`"/dev/fd/7"` becomes `("/dev/fd/", "7")`; a path without a slash has an
empty directory part. -/
def pathSplit (p : String) : String × String :=
  let cs := p.data
  let file := (cs.reverse.takeWhile (fun c => c ≠ '/')).reverse
  (String.mk (cs.take (cs.length - file.length)), String.mk file)

/-- Value of one decimal digit character, `none` for a non-digit. -/
def digitVal (c : Char) : Option Nat :=
  if c.isDigit then some (c.toNat - 48) else none

/-- Decimal value of a nonempty, all-digit character list; `none` when the
list is empty or holds a non-digit. -/
def parseDigits (cs : List Char) : Option Nat :=
  match cs with
  | [] => none
  | _ => cs.foldl (fun acc c =>
      match acc, digitVal c with
      | some a, some d => some (a * 10 + d)
      | _, _ => none) (some 0)

/-- Go `strconv.Atoi` on a 64-bit platform: an optional single sign followed
by at least one decimal digit, rejecting values outside the signed 64-bit
range (Go reports those as a range error, which `parseFuseFd` treats the
same as a syntax error). -/
def goAtoi (s : String) : Option Int :=
  let cs := s.data
  let signDigits : Bool × List Char :=
    match cs with
    | c :: rest =>
      if c = '-' then (true, rest)
      else if c = '+' then (false, rest)
      else (false, cs)
    | [] => (false, [])
  match parseDigits signDigits.2 with
  | none => none
  | some v =>
    if signDigits.1 then
      if v ≤ 2 ^ 63 then some (-(v : Int)) else none
    else
      if v < 2 ^ 63 then some (v : Int) else none

/-- `parseFuseFd` from `src/unnamed/part_000` lines 172-182: return the
descriptor number of a magic `/dev/fd/N` mount point, `-1` otherwise.  The
Go code returns `-1` when `strconv.Atoi` fails or when `fd <= 0`. -/
def parseFuseFd (mountPoint : String) : Int :=
  let df := pathSplit mountPoint
  if df.1 = "/dev/fd/" then
    match goAtoi df.2 with
    | none => -1
    | some fd => if fd ≤ 0 then -1 else fd
  else -1

/-! ## Ancillary-data descriptor extraction: `getConnection` -/

/-- Size of the control-message header (`syscall.SizeofCmsghdr`) on
linux/amd64: a 64-bit length, a 32-bit level and a 32-bit type. -/
def sizeofCmsghdr : Nat := 16

/-- The allocated control buffer of `getConnection`: `make([]byte, 4*256)`
zero-fills 1024 bytes, of which the kernel overwrites the first `oobn` with
the received ancillary data. -/
def controlBuf (received : List Nat) : List Nat :=
  received.take 1024 ++ List.replicate (1024 - (received.take 1024).length) 0

/-- Signed 32-bit little-endian value of four bytes, as Go's pointer cast
`*(*int32)(...)` reads it on linux/amd64. -/
def int32LE (b0 b1 b2 b3 : Nat) : Int :=
  let u := b0 % 256 + 256 * (b1 % 256) + 65536 * (b2 % 256) +
    16777216 * (b3 % 256)
  if u < 2 ^ 31 then (u : Int) else (u : Int) - 2 ^ 32

/-- The `Type` field of the control-message header that `getConnection`
reads through `*(*syscall.Cmsghdr)(unsafe.Pointer(&control[0]))`: the
32-bit word at byte offset 12 of the buffer. -/
def cmsgType (received : List Nat) : Int :=
  let b := controlBuf received
  int32LE (b.getD 12 0) (b.getD 13 0) (b.getD 14 0) (b.getD 15 0)

/-- The candidate descriptor that `getConnection` reads through
`*(*int32)(unsafe.Pointer(... + syscall.SizeofCmsghdr))`: the 32-bit word
at byte offset 16 of the buffer. -/
def cmsgFd (received : List Nat) : Int :=
  let b := controlBuf received
  int32LE (b.getD 16 0) (b.getD 17 0) (b.getD 18 0) (b.getD 19 0)

/-- The distinct failures `getConnection` can report. -/
inductive ConnError
  | recvFailed
  | wrongType (t : Int)
  | tooShort (oobn : Nat)
  | negFd (fd : Int)
deriving DecidableEq, Repr

/-- Result of `getConnection`: the returned descriptor or error, together
with the list of buffer indices the routine dereferenced, used to state
bounds facts about the raw pointer casts. -/
structure ConnResult where
  res : Except ConnError Int
  readIdx : List Nat
deriving Repr

/-- `getConnection` from `src/unnamed/part_000` lines 242-267.  `received`
is the ancillary byte sequence the kernel copied into the control buffer
(its length is the reported out-of-band count `oobn`, truncated to the
1024-byte buffer), `recvErr` is whether `syscall.Recvmsg` itself failed.
The Go code performs both pointer casts (reading bytes 0-15 for the header
struct and 16-19 for the descriptor) before any validation, so those
twenty indices are dereferenced on every path past a successful receive. -/
def getConnection (received : List Nat) (recvErr : Bool) : ConnResult :=
  if recvErr then ⟨Except.error ConnError.recvFailed, []⟩
  else
    let oobn := (received.take 1024).length
    let t := cmsgType received
    let fd := cmsgFd received
    let idx := List.range 20
    if t ≠ 1 then ⟨Except.error (ConnError.wrongType t), idx⟩
    else if oobn ≤ sizeofCmsghdr then ⟨Except.error (ConnError.tooShort oobn), idx⟩
    else if fd < 0 then ⟨Except.error (ConnError.negFd fd), idx⟩
    else ⟨Except.ok fd, idx⟩

/-! ## Requests and payload representations -/

/-- A file-backed payload source (`req.fdData`): an open descriptor, an
offset and a requested length.  `content` is the byte sequence actually
readable from the file at that offset; it is what `LoadFromAt` and `Bytes`
draw from. -/
structure FdData where
  fd : Nat
  off : Nat
  size : Nat
  content : List Nat
deriving DecidableEq, Repr

/-- An outgoing response (`*request`), restricted to the fields the write
path consumes.  Exactly one payload representation is populated: `fdData`,
or `slices`, or the contiguous `flatData`.  `readResult` records whether
the completion signal is non-nil, and `serializeHeader` models the
request's header serialization `req.serializeHeader(size)`. -/
structure Request where
  flatData : List Nat
  slices : Option (List (List Nat))
  fdData : Option FdData
  readResult : Bool
  serializeHeader : Nat → List Nat

/-- Modelled from the spec: `flatDataSize` is not under `src/`; the spec
describes the payload size of the single active representation — the
requested length for a file-backed payload, the summed length of the
scattered buffers, or the length of the contiguous buffer. -/
def Request.flatDataSize (r : Request) : Nat :=
  match r.fdData with
  | some f => f.size
  | none =>
    match r.slices with
    | some ls => (ls.map List.length).sum
    | none => r.flatData.length

/-- The in-memory buffer list the write paths pass to `writev` (the
`slices` list when present, otherwise the single `flatData` buffer),
concatenated. -/
def concatBufs (r : Request) : List Nat :=
  match r.slices with
  | some ls => ls.flatten
  | none => r.flatData

/-- The payload bytes a fully successful transfer carries: the readable
window of the file for a file-backed payload, otherwise the concatenated
in-memory buffers. -/
def payloadBytes (r : Request) : List Nat :=
  match r.fdData with
  | some f => f.content.take f.size
  | none => concatBufs r

/-! ## The splice pipeline: `trySplice` -/

/-- Outcome of each kernel call `trySplice` makes, supplied by the
environment: a reported byte count and an error flag per call, in the
order the source issues them. -/
structure SpliceEnv where
  get1Err : Bool
  grow1Err : Bool
  loadErr : Bool
  loadN : Nat
  writev1Err : Bool
  writev1N : Nat
  get2Err : Bool
  grow2Err : Bool
  hdrErr : Bool
  hdrN : Nat
  loadFromErr : Bool
  loadFromN : Nat
  writeToErr : Bool
  writeToN : Nat
deriving Repr

/-- The environment with the final transfer's reported byte count replaced. -/
def SpliceEnv.withWriteToN (e : SpliceEnv) (n : Nat) : SpliceEnv :=
  { e with writeToN := n }

/-- The failures `trySplice` can return, one per `return err` site of the
source. -/
inductive SpliceError
  | getPipe1
  | growPipe1
  | loadFromAt
  | shortRead (n size : Nat)
  | writevPipe1
  | getPipe2
  | growPipe2
  | headerWrite
  | shortHeaderWrite (n want : Nat)
  | loadFrom
  | shortSplice (n size : Nat)
  | writeTo
deriving DecidableEq, Repr

/-- Result of a `trySplice` run: the returned error (if any), the bytes the
final call moved into the kernel channel, how many transfer calls touched
the channel, and how many pipe pairs were borrowed from and returned to the
pool. -/
structure SpliceResult where
  err : Option SpliceError
  delivered : List Nat
  transfers : Nat
  borrowed : Nat
  returned : Nat
deriving DecidableEq, Repr

/-- Content of the first pipe after the payload staging step: the window
the kernel reports moving from the file, or the bytes the vectored write
reports writing (the source discards the vectored write's count, so a
short write leaves a short pipe). -/
def stagedContent (env : SpliceEnv) (r : Request) : List Nat :=
  match r.fdData with
  | some f => f.content.take env.loadN
  | none => (concatBufs r).take env.writev1N

/-- Consistency of an environment with what the kernel can actually do: no
call reports moving more bytes than its source holds. -/
def SpliceEnv.wf (env : SpliceEnv) (r : Request) : Prop :=
  (∀ f, r.fdData = some f → env.loadN ≤ f.content.length) ∧
  env.writev1N ≤ (concatBufs r).length ∧
  env.loadFromN ≤ (stagedContent env r).length

/-- The payload-staging step of `trySplice` passed its checks: for a
file-backed payload, `LoadFromAt` returned no error and reported exactly
the requested size; for an in-memory payload, the vectored write into the
first pipe returned no error (its count is not checked). -/
def stagingOk (env : SpliceEnv) (r : Request) : Prop :=
  match r.fdData with
  | some _ => env.loadErr = false ∧ env.loadN = r.flatDataSize
  | none => env.writev1Err = false

/-- Second half of `trySplice` (`src/fuse/splice_linux.go` lines 69-106),
entered with the payload already staged in the first pipe (`pipe1`): get
the second pipe pair, re-serialize the header from the request (line 78 —
the incoming `header` argument is dead at this point), grow the pipe,
write the header into it checking the reported count, splice the staged
payload after it checking the reported count, and finally move the pipe
contents into the kernel channel with one `WriteTo` whose reported byte
count is discarded — only its error is returned. -/
def splicePhase2 (env : SpliceEnv) (req : Request) (pipe1 : List Nat) : SpliceResult :=
  if env.get2Err then ⟨some SpliceError.getPipe2, [], 0, 1, 1⟩
  else
    let header2 := req.serializeHeader req.flatDataSize
    let total := header2.length + req.flatDataSize
    if env.grow2Err then ⟨some SpliceError.growPipe2, [], 0, 2, 2⟩
    else if env.hdrErr then ⟨some SpliceError.headerWrite, [], 0, 2, 2⟩
    else if env.hdrN = header2.length then
      if env.loadFromErr then ⟨some SpliceError.loadFrom, [], 0, 2, 2⟩
      else if env.loadFromN = req.flatDataSize then
        let pipe2 := header2.take env.hdrN ++ pipe1.take env.loadFromN
        ⟨if env.writeToErr then some SpliceError.writeTo else none,
          pipe2.take (min env.writeToN total), 1, 2, 2⟩
      else ⟨some (SpliceError.shortSplice env.loadFromN req.flatDataSize),
        [], 0, 2, 2⟩
    else ⟨some (SpliceError.shortHeaderWrite env.hdrN header2.length),
      [], 0, 2, 2⟩

/-- `trySplice` from `src/fuse/splice_linux.go` lines 27-106.  Pair 1 is
borrowed and grown, then stages the payload: from the file via
`LoadFromAt` with a short-read check, or from memory via one vectored
write of the scattered (or single contiguous) buffers whose byte count is
discarded.  The rest is `splicePhase2`.  Each `splice.Get` is paired with
a deferred `splice.Done`, so every borrowed pair is returned on every exit
path: the `returned` field of each outcome equals its `borrowed` field. -/
def trySplice (env : SpliceEnv) (req : Request) (header : List Nat) : SpliceResult :=
  if env.get1Err then ⟨some SpliceError.getPipe1, [], 0, 0, 0⟩
  else if env.grow1Err then ⟨some SpliceError.growPipe1, [], 0, 1, 1⟩
  else
    let size := req.flatDataSize
    let staged : Except SpliceError (List Nat) :=
      match req.fdData with
      | some f =>
        if env.loadErr then Except.error SpliceError.loadFromAt
        else if env.loadN = size then Except.ok (f.content.take env.loadN)
        else Except.error (SpliceError.shortRead env.loadN size)
      | none =>
        if env.writev1Err then Except.error SpliceError.writevPipe1
        else Except.ok ((concatBufs req).take env.writev1N)
    match staged with
    | Except.error e => ⟨some e, [], 0, 1, 1⟩
    | Except.ok pipe1 => splicePhase2 env req pipe1

/-! ## The channel writer: the two `systemWrite` variants -/

/-- Return status of `systemWrite` (`ToStatus` of the decisive error): `ok`
is `OK`, `error` stands for any nonzero status. -/
inductive Status
  | ok
  | error
deriving DecidableEq, Repr

/-- The server state the write path reads: the zero-copy capability flag,
`opts.MinSpliceSize`, and the platform maximum pipe capacity.  The last is
modelled from the spec ("the platform's maximum pipe capacity",
`splice.MaxPipeSize()`), the splice package being outside the given
sources. -/
structure Server where
  canSplice : Bool
  minSpliceSize : Nat
  maxPipeSize : Nat
deriving Repr

/-- Outcomes of the remaining kernel calls `systemWrite` makes: the direct
header write of the zero-size path, the materializing read `fdData.Bytes`
(a reported byte count and a read status), and the fallback vectored write
(an error flag and a reported byte count — the source discards the
count). -/
structure WriteEnv where
  splice : SpliceEnv
  directWriteErr : Bool
  fdReadN : Nat
  fdStatus : Int
  writevErr : Bool
  writevN : Nat
deriving Repr

/-- The environment with the fallback vectored write's reported byte count
replaced. -/
def WriteEnv.withWritevN (e : WriteEnv) (n : Nat) : WriteEnv :=
  { e with writevN := n }

/-- Observable outcome of one `systemWrite` call: the returned status, how
many times the completion signal was marked done, whether the splice
pipeline was attempted and whether it succeeded, and the buffer list of
the direct or vectored write to the channel (empty when the bytes went
through the splice pipeline instead). -/
structure WriteResult where
  status : Status
  doneCount : Nat
  spliceAttempted : Bool
  spliceOk : Bool
  sent : List (List Nat)
deriving DecidableEq, Repr

/-- The splice-attempt condition of `src/fuse/server_linux.go` line 22:
`ms.canSplice && ms.opts.MinSpliceSize > 0 && size > ms.opts.MinSpliceSize`. -/
def spliceCondA (s : Server) (req : Request) : Bool :=
  s.canSplice && decide (0 < s.minSpliceSize) &&
    decide (s.minSpliceSize < req.flatDataSize)

/-- The splice-attempt condition of `src/unnamed/part_000` lines 311-312:
`ms.canSplice && size < splice.MaxPipeSize()-pageSize*2 && (req.fdData != nil || ms.opts.MinSpliceSize > 0 && size >= ms.opts.MinSpliceSize)`. -/
def spliceCondB (s : Server) (req : Request) : Bool :=
  s.canSplice && decide (req.flatDataSize < s.maxPipeSize - pageSize * 2) &&
    (req.fdData.isSome ||
      (decide (0 < s.minSpliceSize) && decide (s.minSpliceSize ≤ req.flatDataSize)))

/-- The scatter-write fallback shared verbatim by both `systemWrite`
variants: when the payload is file-backed, materialize it with
`fdData.Bytes` and re-serialize the header for the bytes obtained; then
issue one vectored write of the header followed by the scattered buffers
or the single contiguous buffer, mark the completion signal if present,
and return the status of the vectored write alone (its byte count is
discarded by the source). -/
def fallbackRun (env : WriteEnv) (req : Request) (header : List Nat)
    (attempted : Bool) : WriteResult :=
  let hm : List Nat × List Nat :=
    match req.fdData with
    | some f =>
      let d := f.content.take env.fdReadN
      (req.serializeHeader d.length, d)
    | none => (header, req.flatData)
  let bufs : List (List Nat) :=
    match req.slices with
    | some ls => hm.1 :: ls
    | none => [hm.1, hm.2]
  { status := if env.writevErr then Status.error else Status.ok
    doneCount := if req.readResult then 1 else 0
    spliceAttempted := attempted
    spliceOk := false
    sent := bufs }

/-- `systemWrite` from `src/fuse/server_linux.go` lines 12-52: zero-size
payloads take one direct header write (EINTR retried transparently) and
return without touching the completion signal; otherwise the splice
pipeline is attempted under `spliceCondA`, a success marking the signal
and returning `OK`, and any other outcome falling through to the shared
scatter-write fallback. -/
def systemWriteA (s : Server) (env : WriteEnv) (req : Request)
    (header : List Nat) : WriteResult :=
  if req.flatDataSize = 0 then
    { status := if env.directWriteErr then Status.error else Status.ok
      doneCount := 0, spliceAttempted := false, spliceOk := false
      sent := [header] }
  else if spliceCondA s req then
    if (trySplice env.splice req header).err = none then
      { status := Status.ok
        doneCount := if req.readResult then 1 else 0
        spliceAttempted := true, spliceOk := true, sent := [] }
    else fallbackRun env req header true
  else fallbackRun env req header false

/-- `systemWrite` from `src/unnamed/part_000` lines 301-342: identical to
the `server_linux.go` variant except that the splice pipeline is attempted
under `spliceCondB`. -/
def systemWriteB (s : Server) (env : WriteEnv) (req : Request)
    (header : List Nat) : WriteResult :=
  if req.flatDataSize = 0 then
    { status := if env.directWriteErr then Status.error else Status.ok
      doneCount := 0, spliceAttempted := false, spliceOk := false
      sent := [header] }
  else if spliceCondB s req then
    if (trySplice env.splice req header).err = none then
      { status := Status.ok
        doneCount := if req.readResult then 1 else 0
        spliceAttempted := true, spliceOk := true, sent := [] }
    else fallbackRun env req header true
  else fallbackRun env req header false

/-! ## The unmount controller -/

/-- What a run of `unmount` can produce: direct or helper success, failure
to locate the helper binary, the formatted stderr failure
`fmt.Errorf("%s (code %v)", errBuf.String(), err)` (recording whether the
interpolated run error was non-nil), or the helper's run error returned
as-is. -/
inductive UnmountRes
  | ok
  | lookupFailed
  | formatted (stderrText : String) (errPresent : Bool)
  | rawErr
deriving DecidableEq, Repr

/-- Outcomes of the calls `unmount` makes: the direct `syscall.Unmount`,
the helper binary lookup, and the helper run's captured stderr and error. -/
structure UnmountEnv where
  directUnmountErr : Bool
  lookupOk : Bool
  helperStderr : String
  helperErr : Bool
deriving Repr

/-- A run of `unmount` paired with how many times the helper was run. -/
structure UnmountOut where
  res : UnmountRes
  helperRuns : Nat
deriving DecidableEq, Repr

/-- `unmount` from `src/unnamed/part_000` lines 218-240: with direct mount
configured, a successful direct `syscall.Unmount` returns immediately;
otherwise the `fusermount` helper is located and run once with `-u` and
the mount path, stderr captured.  Nonempty captured stderr yields the
formatted failure regardless of the run error (which is interpolated into
the message even when nil); otherwise the run error is returned as-is,
nil meaning success. -/
def unmount (directMount : Bool) (env : UnmountEnv) : UnmountOut :=
  if directMount && !env.directUnmountErr then ⟨UnmountRes.ok, 0⟩
  else if !env.lookupOk then ⟨UnmountRes.lookupFailed, 0⟩
  else if env.helperStderr ≠ "" then
    ⟨UnmountRes.formatted env.helperStderr env.helperErr, 1⟩
  else if env.helperErr then ⟨UnmountRes.rawErr, 1⟩
  else ⟨UnmountRes.ok, 1⟩

/-! ## Concrete inputs used by witnesses and counterexamples -/

/-- A request with a single contiguous in-memory payload byte. -/
def memRequest : Request :=
  { flatData := [2], slices := none, fdData := none, readResult := false
    serializeHeader := fun n => [100 + n] }

/-- An all-success environment sized for `memRequest` (payload 1 byte,
header 1 byte). -/
def allOkMemEnv : SpliceEnv :=
  { get1Err := false, grow1Err := false, loadErr := false, loadN := 0
    writev1Err := false, writev1N := 1, get2Err := false, grow2Err := false
    hdrErr := false, hdrN := 1, loadFromErr := false, loadFromN := 1
    writeToErr := false, writeToN := 2 }

/-- A request with a two-byte file-backed payload and a live completion
signal. -/
def fdRequest : Request :=
  { flatData := [], slices := none
    fdData := some { fd := 5, off := 0, size := 2, content := [8, 9] }
    readResult := true, serializeHeader := fun n => [50 + n] }

/-- An all-success environment sized for `fdRequest` (payload 2 bytes,
header 1 byte). -/
def allOkFdEnv : SpliceEnv :=
  { get1Err := false, grow1Err := false, loadErr := false, loadN := 2
    writev1Err := false, writev1N := 0, get2Err := false, grow2Err := false
    hdrErr := false, hdrN := 1, loadFromErr := false, loadFromN := 2
    writeToErr := false, writeToN := 3 }

/-- A request with an empty payload but a live completion signal. -/
def zeroRequest : Request :=
  { flatData := [], slices := none, fdData := none, readResult := true
    serializeHeader := fun n => [100 + n] }

/-- A server with zero-copy available, no minimum-splice threshold and the
usual 1 MiB pipe-capacity limit. -/
def bigServer : Server :=
  { canSplice := true, minSpliceSize := 0, maxPipeSize := 1048576 }

/-- A server with zero-copy unavailable. -/
def offServer : Server :=
  { canSplice := false, minSpliceSize := 0, maxPipeSize := 1048576 }

/-- A write environment whose splice calls all succeed (sized for
`fdRequest`) but whose fallback vectored write fails. -/
def fdWriteEnv : WriteEnv :=
  { splice := allOkFdEnv, directWriteErr := false, fdReadN := 2
    fdStatus := 0, writevErr := true, writevN := 0 }

/-- A write environment where every call succeeds (splice calls sized for
`memRequest`). -/
def plainWriteEnv : WriteEnv :=
  { splice := allOkMemEnv, directWriteErr := false, fdReadN := 0
    fdStatus := 0, writevErr := false, writevN := 0 }

/-- A received ancillary message carrying control type 1 (`SCM_RIGHTS`)
and the encoded descriptor 7, with a 20-byte declared length. -/
def goodCmsg : List Nat :=
  List.replicate 12 0 ++ [1, 0, 0, 0] ++ [7, 0, 0, 0]

/-! ## Theorems -/

/-- C2: `parseFuseFd` maps `/dev/fd/7` to 7 as the claim states, but maps
`/dev/fd/0` to the sentinel `-1` even though 0 is a non-negative integer
and the function's own doc comment promises to accept every `N >= 0`: the
code's `fd <= 0` test contradicts both the claim and the documentation at
exactly the input `/dev/fd/0`. -/
theorem parseFuseFd_rejects_zero_descriptor :
    parseFuseFd "/dev/fd/0" = -1 ∧ parseFuseFd "/dev/fd/7" = 7 ∧
    parseFuseFd "/dev/fd/-1" = -1 ∧ parseFuseFd "/dev/fd/abc" = -1 ∧
    parseFuseFd "/tmp/mnt" = -1 := by
  refine ⟨?_, ?_, ?_, ?_, ?_⟩ <;> decide

/-- C6 (counterexample): with the control data truncated to zero declared
length, `getConnection` still dereferences buffer index 16 — the first
byte of the encoded descriptor, far beyond the declared ancillary length
of 0 — refuting the claim that it never reads ancillary bytes beyond the
declared length.  It does not crash: the read lands in the zero-filled
1024-byte allocation and the routine reports a wrong-control-type error
(type 0). -/
theorem getConnection_reads_beyond_declared_length :
    16 ∈ (getConnection [] false).readIdx ∧
    ([] : List Nat).length = 0 ∧
    (getConnection [] false).res = Except.error (ConnError.wrongType 0) := by
  refine ⟨by decide, rfl, ?_⟩
  rfl

/-- C6 (amended): every buffer index `getConnection` dereferences lies
inside the fixed 1024-byte allocation, so a truncated control buffer can
never cause an out-of-bounds read or crash; a failed receive is reported
as such; and past a successful receive, a control type equal to the
descriptor-passing type 1, a declared ancillary count exceeding the
control-header size and a non-negative encoded descriptor yield exactly
that descriptor, while a wrong type, a too-short declared count, or a
negative encoded descriptor yield three distinct reported errors.  The
routine does, however, read the fixed 20-byte prefix of the allocation
before any of those checks, so bytes beyond the declared ancillary length
are read whenever the declared length is below 20. -/
theorem getConnection_extraction_spec (received : List Nat) (recvErr : Bool) :
    (∀ i ∈ (getConnection received recvErr).readIdx, i < 1024) ∧
    (recvErr = true →
      (getConnection received recvErr).res = Except.error ConnError.recvFailed) ∧
    (recvErr = false →
      (cmsgType received ≠ 1 →
        (getConnection received recvErr).res =
          Except.error (ConnError.wrongType (cmsgType received))) ∧
      (cmsgType received = 1 → (received.take 1024).length ≤ sizeofCmsghdr →
        (getConnection received recvErr).res =
          Except.error (ConnError.tooShort (received.take 1024).length)) ∧
      (cmsgType received = 1 → sizeofCmsghdr < (received.take 1024).length →
        cmsgFd received < 0 →
        (getConnection received recvErr).res =
          Except.error (ConnError.negFd (cmsgFd received))) ∧
      (cmsgType received = 1 → sizeofCmsghdr < (received.take 1024).length →
        0 ≤ cmsgFd received →
        (getConnection received recvErr).res = Except.ok (cmsgFd received))) := by
  have hunfold : getConnection received false =
      (if cmsgType received ≠ 1 then
        ⟨Except.error (ConnError.wrongType (cmsgType received)), List.range 20⟩
      else if (received.take 1024).length ≤ sizeofCmsghdr then
        ⟨Except.error (ConnError.tooShort (received.take 1024).length),
          List.range 20⟩
      else if cmsgFd received < 0 then
        ⟨Except.error (ConnError.negFd (cmsgFd received)), List.range 20⟩
      else ⟨Except.ok (cmsgFd received), List.range 20⟩) := rfl
  refine ⟨?_, ?_, ?_⟩
  · intro i hi
    cases recvErr with
    | true => simp [getConnection] at hi
    | false =>
      rw [hunfold] at hi
      have hr : i ∈ List.range 20 := by
        split at hi
        · exact hi
        · split at hi
          · exact hi
          · split at hi <;> exact hi
      have := List.mem_range.mp hr
      omega
  · intro h; subst h; rfl
  · intro h; subst h
    refine ⟨?_, ?_, ?_, ?_⟩
    · intro ht
      rw [hunfold, if_pos ht]
    · intro ht hshort
      rw [hunfold, if_neg (not_not_intro ht), if_pos hshort]
    · intro ht hlong hneg
      rw [hunfold, if_neg (not_not_intro ht), if_neg (by omega), if_pos hneg]
    · intro ht hlong hpos
      rw [hunfold, if_neg (not_not_intro ht), if_neg (by omega),
        if_neg (by omega)]

/-- C6 (witness): a well-formed 20-byte type-1 message encoding descriptor
7 is accepted and yields 7. -/
theorem getConnection_extraction_spec_witness :
    (getConnection goodCmsg false).res = Except.ok 7 := by
  have h := (getConnection_extraction_spec goodCmsg false).2.2 rfl
  have := h.2.2.2 (by decide) (by decide) (by decide)
  simpa [(by decide : cmsgFd goodCmsg = 7)] using this

/-- C8 (counterexample): a helper run that writes to standard error but
exits cleanly (nil run error) is still surfaced by `unmount` as the
formatted failure, with the nil status interpolated — refuting the claim
that the formatted failure appears only when captured error text is
combined with a non-nil exit status. -/
theorem unmount_formatted_failure_with_nil_status :
    unmount false
        { directUnmountErr := false, lookupOk := true
          helperStderr := "boom", helperErr := false } =
      ⟨UnmountRes.formatted "boom" false, 1⟩ := by
  decide

/-- C8 (amended): with direct mount configured, a successful direct
unmount system call returns success without running the helper; otherwise
(direct mount unused or the direct call failing) the located helper runs
exactly once, any nonempty captured standard-error text is surfaced as the
formatted failure regardless of the run error (which is interpolated into
the message even when nil), and the run is a success exactly when no
standard-error text was captured and the run error is nil. -/
theorem unmount_direct_then_helper_once (direct : Bool) (env : UnmountEnv) :
    (direct = true → env.directUnmountErr = false →
      unmount direct env = ⟨UnmountRes.ok, 0⟩) ∧
    ((direct = false ∨ env.directUnmountErr = true) → env.lookupOk = true →
      (unmount direct env).helperRuns = 1 ∧
      (env.helperStderr ≠ "" →
        (unmount direct env).res =
          UnmountRes.formatted env.helperStderr env.helperErr) ∧
      ((unmount direct env).res = UnmountRes.ok ↔
        env.helperStderr = "" ∧ env.helperErr = false)) := by
  constructor
  · intro hd he
    subst hd
    simp [unmount, he]
  · intro hfall hlk
    have hcond : (direct && !env.directUnmountErr) = false := by
      rcases hfall with h | h <;> simp [h]
    by_cases hs : env.helperStderr = ""
    · by_cases herr : env.helperErr
      · simp [unmount, hcond, hlk, hs, herr]
      · simp [unmount, hcond, hlk, hs, herr]
    · simp [unmount, hcond, hlk, hs]

/-- C8 (witness): with no direct mount, a found helper, empty captured
standard error and a nil run error, `unmount` runs the helper once and
succeeds. -/
theorem unmount_direct_then_helper_once_witness :
    (unmount false
        { directUnmountErr := false, lookupOk := true
          helperStderr := "", helperErr := false }).res = UnmountRes.ok := by
  have h := (unmount_direct_then_helper_once false
    { directUnmountErr := false, lookupOk := true
      helperStderr := "", helperErr := false }).2 (Or.inl rfl) rfl
  exact h.2.2.mpr ⟨rfl, rfl⟩

/-- The flat-data size of a request without a file-backed payload is the
length of its concatenated in-memory buffers. -/
lemma flatDataSize_eq_concat_length (r : Request) (h : r.fdData = none) :
    r.flatDataSize = (concatBufs r).length := by
  unfold Request.flatDataSize concatBufs
  rw [h]
  cases hs : r.slices with
  | none => rfl
  | some ls => simp [List.length_flatten]

/-- Every exit of `splicePhase2` returns exactly as many pipe pairs as it
borrowed, and it borrows at most two. -/
lemma splicePhase2_returned (env : SpliceEnv) (req : Request) (pipe1 : List Nat) :
    (splicePhase2 env req pipe1).returned = (splicePhase2 env req pipe1).borrowed ∧
    (splicePhase2 env req pipe1).borrowed ≤ 2 := by
  simp only [splicePhase2]
  split
  · exact ⟨rfl, by simp⟩
  split
  · exact ⟨rfl, by simp⟩
  split
  · exact ⟨rfl, by simp⟩
  split
  · split
    · exact ⟨rfl, by simp⟩
    split
    · exact ⟨rfl, by simp⟩
    · exact ⟨rfl, by simp⟩
  · exact ⟨rfl, by simp⟩

/-- Every exit of `trySplice` returns exactly as many pipe pairs as it
borrowed, and it borrows at most two. -/
lemma trySplice_returned (env : SpliceEnv) (req : Request) (header : List Nat) :
    (trySplice env req header).returned = (trySplice env req header).borrowed ∧
    (trySplice env req header).borrowed ≤ 2 := by
  simp only [trySplice]
  split
  · exact ⟨rfl, by simp⟩
  split
  · exact ⟨rfl, by simp⟩
  split
  · exact ⟨rfl, by simp⟩
  · exact splicePhase2_returned env req _

/-- A `splicePhase2` run that returns no error passed every intermediate
check, and its outcome is the final record: the re-serialized header
followed by the first `flatDataSize` staged bytes, truncated to the final
transfer's reported count, with both pairs borrowed and returned. -/
lemma splicePhase2_err_none (env : SpliceEnv) (req : Request) (pipe1 : List Nat)
    (hok : (splicePhase2 env req pipe1).err = none) :
    env.get2Err = false ∧ env.grow2Err = false ∧ env.hdrErr = false ∧
    env.hdrN = (req.serializeHeader req.flatDataSize).length ∧
    env.loadFromErr = false ∧ env.loadFromN = req.flatDataSize ∧
    env.writeToErr = false ∧
    splicePhase2 env req pipe1 =
      ⟨none,
        (req.serializeHeader req.flatDataSize ++
          pipe1.take req.flatDataSize).take
          (min env.writeToN
            ((req.serializeHeader req.flatDataSize).length + req.flatDataSize)),
        1, 2, 2⟩ := by
  have h2 : env.get2Err = false := by
    cases h : env.get2Err
    · rfl
    · simp [splicePhase2, h] at hok
  have h3 : env.grow2Err = false := by
    cases h : env.grow2Err
    · rfl
    · simp [splicePhase2, h2, h] at hok
  have h4 : env.hdrErr = false := by
    cases h : env.hdrErr
    · rfl
    · simp [splicePhase2, h2, h3, h] at hok
  have h5 : env.hdrN = (req.serializeHeader req.flatDataSize).length := by
    by_cases h : env.hdrN = (req.serializeHeader req.flatDataSize).length
    · exact h
    · simp [splicePhase2, h2, h3, h4, h] at hok
  have h6 : env.loadFromErr = false := by
    cases h : env.loadFromErr
    · rfl
    · simp [splicePhase2, h2, h3, h4, h5, h] at hok
  have h7 : env.loadFromN = req.flatDataSize := by
    by_cases h : env.loadFromN = req.flatDataSize
    · exact h
    · simp [splicePhase2, h2, h3, h4, h5, h6, h] at hok
  have h8 : env.writeToErr = false := by
    cases h : env.writeToErr
    · rfl
    · simp [splicePhase2, h2, h3, h4, h5, h6, h7, h] at hok
  refine ⟨h2, h3, h4, h5, h6, h7, h8, ?_⟩
  simp [splicePhase2, h2, h3, h4, h5, h6, h7, h8, List.take_length]

/-- A `trySplice` run that returns no error passed the first pipe's
acquisition, growth and staging checks, and the run is `splicePhase2` on
the staged payload. -/
lemma trySplice_err_none_stage (env : SpliceEnv) (req : Request)
    (header : List Nat) (hok : (trySplice env req header).err = none) :
    env.get1Err = false ∧ env.grow1Err = false ∧ stagingOk env req ∧
    trySplice env req header = splicePhase2 env req (stagedContent env req) := by
  have h1 : env.get1Err = false := by
    cases h : env.get1Err
    · rfl
    · simp [trySplice, h] at hok
  have hg : env.grow1Err = false := by
    cases h : env.grow1Err
    · rfl
    · simp [trySplice, h1, h] at hok
  refine ⟨h1, hg, ?_⟩
  rcases hfd : req.fdData with _ | f
  · have hw : env.writev1Err = false := by
      cases h : env.writev1Err
      · rfl
      · simp [trySplice, h1, hg, hfd, h] at hok
    exact ⟨by simp [stagingOk, hfd, hw],
      by simp [trySplice, h1, hg, hfd, hw, stagedContent]⟩
  · have hl : env.loadErr = false := by
      cases h : env.loadErr
      · rfl
      · simp [trySplice, h1, hg, hfd, h] at hok
    have hn : env.loadN = req.flatDataSize := by
      by_cases h : env.loadN = req.flatDataSize
      · exact h
      · simp [trySplice, h1, hg, hfd, hl, h] at hok
    exact ⟨by simp [stagingOk, hfd, hl, hn],
      by simp [trySplice, h1, hg, hfd, hl, hn, stagedContent]⟩

/-- C1 (counterexample): a fully successful memory-payload run of
`trySplice` delivers the re-serialized header, not the header argument `H`
it was called with: called with header `[9, 9, 9]` it succeeds yet the
channel receives `[101, 2]`, not `[9, 9, 9] ++ P` — the source overwrites
its `header` parameter at line 78 before ever using it. -/
theorem trySplice_ignores_header_argument :
    (trySplice allOkMemEnv memRequest [9, 9, 9]).err = none ∧
    (trySplice allOkMemEnv memRequest [9, 9, 9]).transfers = 1 ∧
    (trySplice allOkMemEnv memRequest [9, 9, 9]).delivered ≠
      [9, 9, 9] ++ payloadBytes memRequest := by
  refine ⟨rfl, rfl, by decide⟩

/-- C1 (amended): for every payload representation, a successful
`trySplice` run in a well-formed environment whose final transfer call
reports the full `total = len(header) + payloadSize` bytes delivers
exactly `serializeHeader(payloadSize) ++ P` to the kernel channel, byte
for byte, in one final transfer call.  Two amendments are forced by the
source: the header delivered is the one re-serialized from the request
(the header argument is dead), and full delivery needs the final
transfer's reported count to equal `total`, because the source discards
that count. -/
theorem trySplice_success_delivers_reserialized_header (env : SpliceEnv)
    (req : Request) (header : List Nat) (hwf : env.wf req)
    (hok : (trySplice env req header).err = none)
    (hn : env.writeToN =
      (req.serializeHeader req.flatDataSize).length + req.flatDataSize) :
    (trySplice env req header).delivered =
      req.serializeHeader req.flatDataSize ++ payloadBytes req ∧
    (trySplice env req header).transfers = 1 := by
  obtain ⟨h1, hg, hstage, heq⟩ := trySplice_err_none_stage env req header hok
  rw [heq] at hok
  obtain ⟨h2, h3, h4, h5, h6, h7, h8, heq2⟩ := splicePhase2_err_none env req _ hok
  have hres : trySplice env req header = _ := heq.trans heq2
  obtain ⟨hwf1, hwf2, hwf3⟩ := hwf
  have hsle : req.flatDataSize ≤ (stagedContent env req).length := by omega
  have hX : (stagedContent env req).take req.flatDataSize = payloadBytes req := by
    rcases hfd : req.fdData with _ | f
    · have hsz := flatDataSize_eq_concat_length req hfd
      have hstg : stagedContent env req = (concatBufs req).take env.writev1N := by
        simp [stagedContent, hfd]
      have hwge : req.flatDataSize ≤ env.writev1N := by
        rw [hstg, List.length_take] at hsle
        omega
      rw [hstg, List.take_take]
      have hmin : min req.flatDataSize env.writev1N = req.flatDataSize := by
        omega
      rw [hmin, hsz, List.take_length]
      simp [payloadBytes, hfd]
    · have hln : env.loadN = req.flatDataSize := by
        simp [stagingOk, hfd] at hstage
        exact hstage.2
      have hstg : stagedContent env req = f.content.take env.loadN := by
        simp [stagedContent, hfd]
      have hfds : req.flatDataSize = f.size := by
        simp [Request.flatDataSize, hfd]
      rw [hstg, hln, List.take_take, Nat.min_self, hfds]
      simp [payloadBytes, hfd]
  have hlen : ((stagedContent env req).take req.flatDataSize).length =
      req.flatDataSize := by
    rw [List.length_take]
    omega
  have htot : (req.serializeHeader req.flatDataSize ++
      (stagedContent env req).take req.flatDataSize).length =
      (req.serializeHeader req.flatDataSize).length + req.flatDataSize := by
    rw [List.length_append, hlen]
  constructor
  · rw [hres, hn, Nat.min_self, ← htot, List.take_length, hX]
  · rw [hres]

/-- C1 (witness): on the concrete all-success memory-payload run, the
delivered bytes are exactly the re-serialized header followed by the
payload. -/
theorem trySplice_success_delivers_reserialized_header_witness :
    (trySplice allOkMemEnv memRequest [9, 9, 9]).delivered =
      memRequest.serializeHeader memRequest.flatDataSize ++
        payloadBytes memRequest :=
  (trySplice_success_delivers_reserialized_header allOkMemEnv memRequest
    [9, 9, 9]
    ⟨fun _ h => Option.noConfusion h, by decide, by decide⟩ rfl (by decide)).1

/-- C4 (counterexample): the final transfer's reported byte count is not
checked: in an otherwise all-success run where the final `WriteTo` reports
0 of the 2 total bytes moved (and no error), `trySplice` still returns
success — refuting the claim that a reported count below `total` makes it
return a failure. -/
theorem trySplice_short_final_transfer_reports_success :
    (trySplice (allOkMemEnv.withWriteToN 0) memRequest [9]).err = none ∧
    (allOkMemEnv.withWriteToN 0).writeToN <
      (memRequest.serializeHeader memRequest.flatDataSize).length +
        memRequest.flatDataSize ∧
    (trySplice (allOkMemEnv.withWriteToN 0) memRequest [9]).delivered = [] := by
  refine ⟨rfl, by decide, rfl⟩

/-- C4 (amended): once every step before the final move has succeeded,
`trySplice` fails exactly when the final transfer call returns an error;
the byte count that call reports is discarded, so it never affects the
returned status — in particular a reported count below `total` with no
error is still returned as success. -/
theorem trySplice_final_move_error_checked_count_ignored (env : SpliceEnv)
    (req : Request) (header : List Nat)
    (h1 : env.get1Err = false) (h2 : env.grow1Err = false)
    (hstage : stagingOk env req)
    (h3 : env.get2Err = false) (h4 : env.grow2Err = false)
    (h5 : env.hdrErr = false)
    (h6 : env.hdrN = (req.serializeHeader req.flatDataSize).length)
    (h7 : env.loadFromErr = false)
    (h8 : env.loadFromN = req.flatDataSize) :
    ((trySplice env req header).err = none ↔ env.writeToErr = false) ∧
    ∀ n, (trySplice (env.withWriteToN n) req header).err =
      (trySplice env req header).err := by
  rcases hfd : req.fdData with _ | f
  · rw [stagingOk, hfd] at hstage
    constructor
    · cases hwte : env.writeToErr <;>
        simp [trySplice, splicePhase2, h1, h2, hfd, hstage, h3, h4, h5, h6,
          h7, h8, hwte]
    · intro n
      simp [trySplice, splicePhase2, SpliceEnv.withWriteToN, h1, h2, hfd,
        hstage, h3, h4, h5, h6, h7, h8]
  · rw [stagingOk, hfd] at hstage
    obtain ⟨hl, hln⟩ := hstage
    constructor
    · cases hwte : env.writeToErr <;>
        simp [trySplice, splicePhase2, h1, h2, hfd, hl, hln, h3, h4, h5, h6,
          h7, h8, hwte]
    · intro n
      simp [trySplice, splicePhase2, SpliceEnv.withWriteToN, h1, h2, hfd,
        hl, hln, h3, h4, h5, h6, h7, h8]

/-- C4 (witness): the concrete all-success memory-payload run reaches the
final move with no error flag, and the theorem reports it as success. -/
theorem trySplice_final_move_error_checked_witness :
    (trySplice allOkMemEnv memRequest [9]).err = none :=
  (trySplice_final_move_error_checked_count_ignored allOkMemEnv memRequest
    [9] rfl rfl rfl rfl rfl rfl (by decide) rfl (by decide)).1.mpr rfl

/-- C7 (counterexample): a successful run of `trySplice` borrows two pipe
pairs from the pool, not exactly one as the claim states, and the payload
is staged through both pipes before the final move. -/
theorem trySplice_successful_run_borrows_two :
    (trySplice allOkFdEnv fdRequest []).err = none ∧
    (trySplice allOkFdEnv fdRequest []).borrowed ≠ 1 := by
  refine ⟨rfl, by decide⟩

/-- C7 (amended): every execution of `trySplice` borrows at most two pipe
pairs from the pool — exactly two on any successful run, the payload being
staged through the first pipe and then through the second together with
the header before the single final move into the kernel channel — and
every borrowed pair is returned to the pool when the routine exits, on
success and on every failure path. -/
theorem trySplice_pool_borrow_return (env : SpliceEnv) (req : Request)
    (header : List Nat) :
    (trySplice env req header).returned = (trySplice env req header).borrowed ∧
    (trySplice env req header).borrowed ≤ 2 ∧
    ((trySplice env req header).err = none →
      (trySplice env req header).borrowed = 2 ∧
      (trySplice env req header).transfers = 1) := by
  refine ⟨(trySplice_returned env req header).1,
    (trySplice_returned env req header).2, ?_⟩
  intro hok
  obtain ⟨_, _, _, heq⟩ := trySplice_err_none_stage env req header hok
  rw [heq] at hok
  obtain ⟨_, _, _, _, _, _, _, heq2⟩ := splicePhase2_err_none env req _ hok
  rw [heq.trans heq2]
  exact ⟨rfl, rfl⟩

/-- C7 (witness): on the concrete all-success file-backed run, both
borrowed pairs are returned. -/
theorem trySplice_pool_borrow_return_witness :
    (trySplice allOkFdEnv fdRequest []).borrowed = 2 ∧
    (trySplice allOkFdEnv fdRequest []).returned = 2 := by
  have h := trySplice_pool_borrow_return allOkFdEnv fdRequest []
  exact ⟨(h.2.2 rfl).1, by rw [h.1]; exact (h.2.2 rfl).1⟩

/-- C3: for every request with nonzero payload size, the `systemWrite` of
`src/unnamed/part_000` attempts the splice pipeline exactly when zero-copy
is available, the payload size is strictly below the platform maximum pipe
capacity minus two pages, and either the payload is file-backed or the
configured minimum-splice-size threshold is nonzero and the payload size
is at least that threshold. -/
theorem systemWriteB_splice_attempt_iff (s : Server) (env : WriteEnv)
    (req : Request) (header : List Nat) (hsz : req.flatDataSize ≠ 0) :
    (systemWriteB s env req header).spliceAttempted = true ↔
      (s.canSplice = true ∧
        req.flatDataSize < s.maxPipeSize - 2 * pageSize ∧
        (req.fdData ≠ none ∨
          (0 < s.minSpliceSize ∧ s.minSpliceSize ≤ req.flatDataSize))) := by
  have hatt : (systemWriteB s env req header).spliceAttempted =
      spliceCondB s req := by
    simp only [systemWriteB, if_neg hsz]
    by_cases hc : spliceCondB s req
    · rw [if_pos hc]
      split
      · simp [hc]
      · simp [fallbackRun, hc]
    · rw [if_neg hc]
      rw [Bool.not_eq_true] at hc
      simp [fallbackRun, hc]
  rw [hatt, spliceCondB]
  simp only [Bool.and_eq_true, Bool.or_eq_true, decide_eq_true_eq,
    Option.isSome_iff_ne_none, and_assoc]
  rw [Nat.mul_comm pageSize 2]

/-- C3 (witness): a file-backed two-byte payload on a zero-threshold
server with zero-copy available is attempted through the splice
pipeline. -/
theorem systemWriteB_splice_attempt_iff_witness :
    (systemWriteB bigServer fdWriteEnv fdRequest [9]).spliceAttempted = true :=
  (systemWriteB_splice_attempt_iff bigServer fdWriteEnv fdRequest [9]
    (by decide)).mpr ⟨rfl, by decide, Or.inl (by decide)⟩

/-- C5 (counterexample): a request with an empty payload but a live
completion signal returns through the zero-size direct-write path of both
`systemWrite` variants without its completion signal ever being marked
done — refuting the claim that the signal is marked exactly once
regardless of path. -/
theorem systemWrite_zero_size_skips_done :
    zeroRequest.readResult = true ∧
    (systemWriteA bigServer plainWriteEnv zeroRequest [3]).doneCount = 0 ∧
    (systemWriteB bigServer plainWriteEnv zeroRequest [3]).doneCount = 0 := by
  exact ⟨rfl, rfl, rfl⟩

/-- C5 (amended): in both `systemWrite` variants, a request with a live
completion signal has it marked done exactly once whenever the payload
size is nonzero — on the successful-splice path and on the scatter-write
fallback alike — while the zero-size direct-write path never marks it. -/
theorem systemWrite_done_exactly_once_nonzero (s : Server) (env : WriteEnv)
    (req : Request) (header : List Nat) :
    (systemWriteA s env req header).doneCount =
      (if req.readResult = true ∧ req.flatDataSize ≠ 0 then 1 else 0) ∧
    (systemWriteB s env req header).doneCount =
      (if req.readResult = true ∧ req.flatDataSize ≠ 0 then 1 else 0) := by
  refine ⟨?_, ?_⟩
  all_goals
    by_cases hsz : req.flatDataSize = 0
    · simp [systemWriteA, systemWriteB, hsz]
    · simp only [systemWriteA, systemWriteB, if_neg hsz]
      split
      · split
        · simp [hsz]
        · simp [fallbackRun, hsz]
      · simp [fallbackRun, hsz]

/-- C9 (counterexample): the two `systemWrite` variants are not
equivalent: for a small file-backed payload on a server with a zero
minimum-splice threshold, the `part_000` variant attempts the splice
pipeline and returns OK while the `server_linux.go` variant skips it,
falls back to the failing vectored write, and returns an error. -/
theorem systemWrite_variants_disagree :
    (systemWriteA bigServer fdWriteEnv fdRequest [9]).spliceAttempted = false ∧
    (systemWriteB bigServer fdWriteEnv fdRequest [9]).spliceAttempted = true ∧
    (systemWriteA bigServer fdWriteEnv fdRequest [9]).status = Status.error ∧
    (systemWriteB bigServer fdWriteEnv fdRequest [9]).status = Status.ok := by
  exact ⟨rfl, rfl, rfl, rfl⟩

/-- C9 (amended): the two `systemWrite` variants share the zero-size path
and the scatter-write fallback, and return identical results on every
input where their splice-attempt conditions agree; the conditions differ —
the `server_linux.go` variant attempts the splice pipeline exactly when
zero-copy is available, the threshold is nonzero and the payload size
strictly exceeds it, while the `part_000` variant attempts it exactly when
zero-copy is available, the payload size is below the maximum pipe
capacity minus two pages, and the payload is file-backed or the nonzero
threshold is met. -/
theorem systemWrite_variants_agree_iff_conditions (s : Server) (env : WriteEnv)
    (req : Request) (header : List Nat) :
    (spliceCondA s req = spliceCondB s req →
      systemWriteA s env req header = systemWriteB s env req header) ∧
    (spliceCondA s req = true ↔
      (s.canSplice = true ∧ 0 < s.minSpliceSize ∧
        s.minSpliceSize < req.flatDataSize)) ∧
    (spliceCondB s req = true ↔
      (s.canSplice = true ∧ req.flatDataSize < s.maxPipeSize - pageSize * 2 ∧
        (req.fdData ≠ none ∨
          (0 < s.minSpliceSize ∧ s.minSpliceSize ≤ req.flatDataSize)))) := by
  refine ⟨?_, ?_, ?_⟩
  · intro h
    simp only [systemWriteA, systemWriteB, h]
  · simp [spliceCondA, Bool.and_eq_true, decide_eq_true_eq, and_assoc]
  · simp only [spliceCondB, Bool.and_eq_true, Bool.or_eq_true,
      decide_eq_true_eq, Option.isSome_iff_ne_none, and_assoc]

/-- C9 (witness): with zero-copy unavailable both conditions are false and
the two variants return the same result. -/
theorem systemWrite_variants_agree_witness :
    systemWriteA offServer plainWriteEnv memRequest [9] =
      systemWriteB offServer plainWriteEnv memRequest [9] :=
  (systemWrite_variants_agree_iff_conditions offServer plainWriteEnv
    memRequest [9]).1 rfl

/-- C10: on the scatter-write fallback path (nonzero payload, splice not
taken or failed), both `systemWrite` variants return a status that depends
only on whether the fallback vectored write returned an error; the byte
count that write reports is discarded, so a short but error-free vectored
write is still reported as success. -/
theorem systemWrite_fallback_ignores_written_bytes (s : Server)
    (env : WriteEnv) (req : Request) (header : List Nat) (n : Nat)
    (hsz : req.flatDataSize ≠ 0)
    (hA : (systemWriteA s env req header).spliceOk = false)
    (hB : (systemWriteB s env req header).spliceOk = false) :
    (systemWriteA s env req header).status =
      (if env.writevErr then Status.error else Status.ok) ∧
    (systemWriteB s env req header).status =
      (if env.writevErr then Status.error else Status.ok) ∧
    systemWriteA s (env.withWritevN n) req header =
      systemWriteA s env req header ∧
    systemWriteB s (env.withWritevN n) req header =
      systemWriteB s env req header := by
  refine ⟨?_, ?_, ?_, ?_⟩
  · by_cases hc : spliceCondA s req
    · by_cases hok : (trySplice env.splice req header).err = none
      · exfalso
        simp [systemWriteA, if_neg hsz, hc, hok] at hA
      · simp [systemWriteA, if_neg hsz, hc, hok, fallbackRun]
    · simp [systemWriteA, if_neg hsz, hc, fallbackRun]
  · by_cases hc : spliceCondB s req
    · by_cases hok : (trySplice env.splice req header).err = none
      · exfalso
        simp [systemWriteB, if_neg hsz, hc, hok] at hB
      · simp [systemWriteB, if_neg hsz, hc, hok, fallbackRun]
    · simp [systemWriteB, if_neg hsz, hc, fallbackRun]
  · rfl
  · rfl

/-- C10 (witness): with zero-copy unavailable and an error-free vectored
write, both variants report success on the fallback path. -/
theorem systemWrite_fallback_ignores_written_bytes_witness :
    (systemWriteA offServer plainWriteEnv memRequest [9]).status = Status.ok ∧
    (systemWriteB offServer plainWriteEnv memRequest [9]).status = Status.ok := by
  have h := systemWrite_fallback_ignores_written_bytes offServer plainWriteEnv
    memRequest [9] 5 (by decide) rfl rfl
  refine ⟨by rw [h.1]; rfl, by rw [h.2.1]; rfl⟩

end GoFuse
